import Mathlib

/-!
Verification of the wyoming-giga-am-ctc event handler.

This file gives a shallow embedding of `GigaAMCTCEventHandler.handle_event`
(src/wyoming_giga_am_ctc/handler.py) and of the process-wide `model_lock`
discipline wired up in `main` (src/wyoming_giga_am_ctc/__main__.py), and
proves or refutes the specification claims about them.

Embedding choices:
- Inbound events are an inductive with one constructor per wire type the
  handler distinguishes (`AudioChunk`, `AudioStop`, `Transcribe`, `Describe`),
  plus `audioStart` and `other` for the types that fall through every
  `is_type` test to the final `return True` (the handler does not even import
  `AudioStart`).
- `wave` buffering is modelled as an optional `WavFile` (format plus the byte
  list written so far); `writeframes` appends bytes, `wave.open` records the
  format taken from the first chunk.
- The NeMo model call `self.model.transcribe([path])[0]` is a parameter
  `modelTranscribe : WavFile → Except RecError String`; a Python exception
  from it, and the `assert` on `AudioStop`, become `Except.error` results of
  `handle_event` (an uncaught exception propagates out of the coroutine).
- The Wyoming server loop semantics (the boolean returned by `handle_event`:
  `True` keeps consuming events, `False` ends the loop for that connection)
  is captured by `runEvents`.
- The `asyncio.Lock` held around the transcribe call is modelled as a small
  interleaving transition system `GateStep` over per-session phases.
-/

/-- Audio format tuple `(rate, width, channels)` as set by
`setframerate`/`setsampwidth`/`setnchannels` in `handle_event`. -/
structure AudioFormat where
  rate : Nat
  width : Nat
  channels : Nat
deriving DecidableEq, Repr

/-- The wav buffer at `self._wav_path`: the format it was opened with and the
bytes written into it so far (`writeframes` appends). -/
structure WavFile where
  format : AudioFormat
  data : List Nat
deriving DecidableEq, Repr

/-- Payload of one `AudioChunk` event: its format fields and raw audio bytes. -/
structure AudioChunkData where
  rate : Nat
  width : Nat
  channels : Nat
  audio : List Nat
deriving DecidableEq, Repr

/-- Inbound Wyoming events as discriminated by `handle_event`'s `is_type`
tests. `audioStart` and `other` both fall through to the final `return True`
branch: the handler tests only for `AudioChunk`, `AudioStop`, `Transcribe`
and `Describe`. -/
inductive WyomingEvent where
  | audioChunk (rate width channels : Nat) (audio : List Nat)
  | audioStop
  | audioStart (rate width channels : Nat)
  | transcribe (name : Option String)
  | describe
  | other (ty : String)
deriving DecidableEq, Repr

/-- An ASR model entry of the static `Info` object built in `main`
(src/wyoming_giga_am_ctc/__main__.py). -/
structure AsrModelData where
  name : String
  description : String
  attributionName : String
  attributionUrl : String
  installed : Bool
  languages : List String
  version : String
deriving DecidableEq, Repr

/-- An ASR program entry of the static `Info` object built in `main`. -/
structure AsrProgramData where
  name : String
  description : String
  attributionName : String
  attributionUrl : String
  installed : Bool
  version : String
  models : List AsrModelData
deriving DecidableEq, Repr

/-- The Wyoming `Info` payload: the list of ASR programs. -/
structure InfoData where
  asr : List AsrProgramData
deriving DecidableEq, Repr

/-- The concrete `wyoming_info` constructed once in `main`
(src/wyoming_giga_am_ctc/__main__.py, the `Info(asr=[AsrProgram(...)])`
literal) and passed to every `GigaAMCTCEventHandler`. -/
def wyomingInfo : InfoData :=
  { asr := [
      { name := "NeMo"
        description := "NVIDIA NeMo framework"
        attributionName := "NVIDIA"
        attributionUrl := "https://github.com/NVIDIA/NeMo/"
        installed := true
        version := "unknown"
        models := [
          { name := "gigaAM-CTC"
            description := "GigaAM (Giga Acoustic Model) - a Conformer-based wav2vec2 foundational model"
            attributionName := "SberDevices"
            attributionUrl := "https://github.com/salute-developers/GigaAM"
            installed := true
            languages := ["ru"]
            version := "1" } ] } ] }

/-- All model entries listed across the ASR programs of an `Info` payload. -/
def supportedModels (i : InfoData) : List AsrModelData :=
  (i.asr.map AsrProgramData.models).foldr (· ++ ·) []

/-- Outbound events written by `handle_event` via `write_event`. -/
inductive OutEvent where
  | transcript (text : String)
  | info (i : InfoData)
deriving DecidableEq, Repr

/-- Error message carried by a failing recognizer call. -/
abbrev RecError := String

/-- Python exceptions escaping `handle_event`: the `assert` on `AudioStop`
with no open buffer, and an exception raised inside `model.transcribe`. -/
inductive HandlerError where
  | assertionError
  | recognitionError (e : RecError)
deriving DecidableEq, Repr

/-- Per-connection mutable state of `GigaAMCTCEventHandler`: the optional
open wav buffer `self._wav_file` and the static `self.wyoming_info_event`
recorded at construction. (`self.model` and `self.model_lock` are the
recognizer parameter of `handle_event` and the gate model below.) -/
structure HandlerState where
  _wav_file : Option WavFile
  wyoming_info_event : InfoData
deriving DecidableEq, Repr

/-- Handler state right after `__init__` for the process-wide info object:
no wav buffer is open. -/
def initialState : HandlerState :=
  { _wav_file := none, wyoming_info_event := wyomingInfo }

/-- Shallow embedding of `GigaAMCTCEventHandler.handle_event`
(src/wyoming_giga_am_ctc/handler.py, lines 42-82). Returns the new state,
the events written to the client, and the boolean the coroutine returns;
`Except.error` models an uncaught Python exception. Branches, in source
order:
- `AudioChunk`: if `self._wav_file is None`, open the wav file and set the
  format from the chunk; then `writeframes(chunk.audio)`; `return True`.
- `AudioStop`: `assert self._wav_file is not None` (AssertionError when no
  buffer is open); close the file, set `self._wav_file = None`, transcribe
  the file under the model lock (an exception propagates), write one
  `Transcript` event, `return False`.
- `Transcribe`: parse and discard; `return True`.
- `Describe`: write `self.wyoming_info_event`; `return True`.
- anything else (including `AudioStart`): `return True`. -/
def handle_event (modelTranscribe : WavFile → Except RecError String)
    (s : HandlerState) (event : WyomingEvent) :
    Except HandlerError (HandlerState × List OutEvent × Bool) :=
  match event with
  | .audioChunk rate width channels audio =>
    match s._wav_file with
    | none =>
      .ok ({ s with _wav_file := some ⟨⟨rate, width, channels⟩, audio⟩ }, [], true)
    | some wf =>
      .ok ({ s with _wav_file := some ⟨wf.format, wf.data ++ audio⟩ }, [], true)
  | .audioStop =>
    match s._wav_file with
    | none => .error .assertionError
    | some wf =>
      match modelTranscribe wf with
      | .error e => .error (.recognitionError e)
      | .ok text => .ok ({ s with _wav_file := none }, [.transcript text], false)
  | .transcribe _ => .ok (s, [], true)
  | .describe => .ok (s, [.info s.wyoming_info_event], true)
  | .audioStart _ _ _ => .ok (s, [], true)
  | .other _ => .ok (s, [], true)

/-- The Wyoming server loop around one connection: feed events to
`handle_event` in arrival order, collecting written events; stop at the
first `False` return (the server closes the handler) or at an uncaught
exception. Returns the events written so far and either the final state with
the continue flag, or the escaped exception. -/
def runEvents (modelTranscribe : WavFile → Except RecError String)
    (s : HandlerState) :
    List WyomingEvent → List OutEvent × Except HandlerError (HandlerState × Bool)
  | [] => ([], .ok (s, true))
  | e :: es =>
    match handle_event modelTranscribe s e with
    | .error err => ([], .error err)
    | .ok (s', out, false) => (out, .ok (s', false))
    | .ok (s', out, true) =>
      let r := runEvents modelTranscribe s' es
      (out ++ r.1, r.2)

/-- Number of `Transcript` events in an outbound event list. -/
def countTranscripts : List OutEvent → Nat
  | [] => 0
  | .transcript _ :: rest => 1 + countTranscripts rest
  | .info _ :: rest => countTranscripts rest

/-- The event a chunk payload is delivered in. -/
def AudioChunkData.toEvent (c : AudioChunkData) : WyomingEvent :=
  .audioChunk c.rate c.width c.channels c.audio

/-- Concatenation of chunk payloads in arrival order. -/
def concatPayloads : List AudioChunkData → List Nat
  | [] => []
  | c :: cs => c.audio ++ concatPayloads cs

/-- Phase of one session's coroutine relative to the `async with
self.model_lock` block in `handle_event` (lines 62-63 of handler.py):
before reaching it, suspended awaiting the lock, inside it (the
`model.transcribe` call), or past it. -/
inductive SessionPhase where
  | beforeLock
  | waitingLock
  | inTranscribe
  | afterLock
deriving DecidableEq, Repr

/-- Process state for `n` concurrent sessions sharing the one
`asyncio.Lock()` created in `main` and passed to every handler: each
session's phase, plus the current lock holder (`none` when the lock is
free). -/
structure GateState (n : Nat) where
  phase : Fin n → SessionPhase
  holder : Option (Fin n)

/-- Initial process state: every session is before its lock block and the
lock is free. -/
def initGate (n : Nat) : GateState n :=
  { phase := fun _ => .beforeLock, holder := none }

/-- Interleaving semantics of `async with self.model_lock:
transcription = self.model.transcribe(...)` across sessions. A session
reaches the block (`request`), acquires the lock only when no one holds it
(`acquire`, the awaiting session is suspended and takes no step otherwise),
and releases it when its transcribe call finishes (`release`). Only the
stepping session's phase changes. -/
inductive GateStep {n : Nat} : GateState n → GateState n → Prop where
  | request (s : GateState n) (i : Fin n) :
      s.phase i = .beforeLock →
      GateStep s ⟨fun j => if j = i then .waitingLock else s.phase j, s.holder⟩
  | acquire (s : GateState n) (i : Fin n) :
      s.phase i = .waitingLock → s.holder = none →
      GateStep s ⟨fun j => if j = i then .inTranscribe else s.phase j, some i⟩
  | release (s : GateState n) (i : Fin n) :
      s.phase i = .inTranscribe → s.holder = some i →
      GateStep s ⟨fun j => if j = i then .afterLock else s.phase j, none⟩

/-- Process states reachable from the initial state by interleaved steps. -/
def GateReachable (n : Nat) (s : GateState n) : Prop :=
  Relation.ReflTransGen GateStep (initGate n) s

/-- Lock invariant: any session inside its transcribe call is the lock
holder. -/
def GateInv {n : Nat} (s : GateState n) : Prop :=
  ∀ i : Fin n, s.phase i = .inTranscribe → s.holder = some i

theorem gateInv_init (n : Nat) : GateInv (initGate n) := by
  intro i h
  simp [initGate] at h

theorem gateInv_step {n : Nat} {s s' : GateState n}
    (hstep : GateStep s s') (hinv : GateInv s) : GateInv s' := by
  cases hstep with
  | request i hph =>
    intro k hk
    simp only at hk
    by_cases hki : k = i
    · subst hki; simp at hk
    · simp [hki] at hk
      exact hinv k hk
  | acquire i hph hfree =>
    intro k hk
    simp only at hk ⊢
    by_cases hki : k = i
    · subst hki; rfl
    · simp [hki] at hk
      have hh := hinv k hk
      rw [hfree] at hh
      exact absurd hh (by simp)
  | release i hph hhold =>
    intro k hk
    simp only at hk ⊢
    by_cases hki : k = i
    · subst hki; simp at hk
    · simp [hki] at hk
      have hk' := hinv k hk
      rw [hhold] at hk'
      have hik : i = k := by
        injection hk'
      exact absurd hik.symm hki

theorem gateInv_reachable {n : Nat} {s : GateState n}
    (h : GateReachable n s) : GateInv s := by
  induction h with
  | refl => exact gateInv_init n
  | tail _ hstep ih => exact gateInv_step hstep ih

theorem handle_event_info_preserved
    (modelTranscribe : WavFile → Except RecError String)
    (s : HandlerState) (e : WyomingEvent)
    (s' : HandlerState) (out : List OutEvent) (cont : Bool)
    (h : handle_event modelTranscribe s e = .ok (s', out, cont)) :
    s'.wyoming_info_event = s.wyoming_info_event := by
  cases e with
  | audioChunk rate width channels audio =>
    cases hwf : s._wav_file with
    | none =>
      simp [handle_event, hwf] at h
      obtain ⟨h1, h2, h3⟩ := h
      subst h1
      rfl
    | some wf =>
      simp [handle_event, hwf] at h
      obtain ⟨h1, h2, h3⟩ := h
      subst h1
      rfl
  | audioStop =>
    cases hwf : s._wav_file with
    | none => simp [handle_event, hwf] at h
    | some wf =>
      simp [handle_event, hwf] at h
      cases htr : modelTranscribe wf with
      | error e =>
        rw [htr] at h
        simp at h
      | ok text =>
        rw [htr] at h
        simp at h
        obtain ⟨h1, h2, h3⟩ := h
        subst h1
        rfl
  | transcribe name =>
    simp [handle_event] at h
    obtain ⟨h1, h2, h3⟩ := h
    subst h1
    rfl
  | describe =>
    simp [handle_event] at h
    obtain ⟨h1, h2, h3⟩ := h
    subst h1
    rfl
  | audioStart rate width channels =>
    simp [handle_event] at h
    obtain ⟨h1, h2, h3⟩ := h
    subst h1
    rfl
  | other ty =>
    simp [handle_event] at h
    obtain ⟨h1, h2, h3⟩ := h
    subst h1
    rfl

theorem runEvents_info_preserved
    (modelTranscribe : WavFile → Except RecError String)
    (es : List WyomingEvent) (s : HandlerState)
    (s' : HandlerState) (out : List OutEvent) (cont : Bool)
    (h : runEvents modelTranscribe s es = (out, .ok (s', cont))) :
    s'.wyoming_info_event = s.wyoming_info_event := by
  induction es generalizing s out with
  | nil =>
    simp only [runEvents] at h
    cases h
    rfl
  | cons e es ih =>
    simp only [runEvents] at h
    cases he : handle_event modelTranscribe s e with
    | error err => rw [he] at h; cases h
    | ok r =>
      obtain ⟨s₁, out₁, cont₁⟩ := r
      rw [he] at h
      cases cont₁ with
      | false =>
        simp only at h
        cases h
        exact handle_event_info_preserved modelTranscribe s e _ _ _ he
      | true =>
        simp only at h
        cases hrest : runEvents modelTranscribe s₁ es with
        | mk out₂ r₂ =>
          rw [hrest] at h
          cases h
          have h₁ := handle_event_info_preserved modelTranscribe s e _ _ _ he
          have h₂ := ih s₁ out₂ hrest
          rw [h₂, h₁]

theorem runEvents_chunks
    (modelTranscribe : WavFile → Except RecError String)
    (cs : List AudioChunkData) :
    ∀ (s : HandlerState) (fmt : AudioFormat) (d : List Nat)
      (rest : List WyomingEvent),
    runEvents modelTranscribe { s with _wav_file := some ⟨fmt, d⟩ }
        (cs.map AudioChunkData.toEvent ++ rest)
      = runEvents modelTranscribe
          { s with _wav_file := some ⟨fmt, d ++ concatPayloads cs⟩ } rest := by
  induction cs with
  | nil =>
    intro s fmt d rest
    simp [concatPayloads]
  | cons c cs ih =>
    intro s fmt d rest
    have step := ih s fmt (d ++ c.audio) rest
    simp only [concatPayloads, List.map_cons, List.cons_append,
      AudioChunkData.toEvent, runEvents, handle_event, List.nil_append,
      List.append_assoc, Prod.mk.eta] at step ⊢
    exact step

/-- Utterance run helper: from a state with no open buffer, a full
audio-start, chunks `c :: cs`, audio-stop cycle delivers to the recognizer
exactly the wav file whose format is the first chunk's format and whose
data is the concatenation of all chunk payloads in arrival order; on
success exactly one transcript is written and the loop stops, on a
recognizer error the exception escapes with nothing written. -/
theorem runEvents_full_cycle
    (tr : WavFile → Except RecError String) (s : HandlerState)
    (h : s._wav_file = none) (r w ch : Nat)
    (c : AudioChunkData) (cs : List AudioChunkData) :
    runEvents tr s
        (.audioStart r w ch :: ((c :: cs).map AudioChunkData.toEvent ++ [.audioStop]))
      = match tr ⟨⟨c.rate, c.width, c.channels⟩, concatPayloads (c :: cs)⟩ with
        | .error e => ([], .error (.recognitionError e))
        | .ok text => ([.transcript text], .ok ({ s with _wav_file := none }, false)) := by
  have hchunks := runEvents_chunks tr cs s ⟨c.rate, c.width, c.channels⟩ c.audio
    [WyomingEvent.audioStop]
  simp only [List.map_cons, List.cons_append, runEvents, handle_event,
    AudioChunkData.toEvent, h, List.nil_append, List.append_eq,
    Prod.mk.eta] at hchunks ⊢
  rw [hchunks]
  simp only [concatPayloads]
  cases htr : tr ⟨⟨c.rate, c.width, c.channels⟩, c.audio ++ concatPayloads cs⟩ with
  | error e => simp [runEvents, handle_event, htr]
  | ok text => simp [runEvents, handle_event, htr]

/-- Claim C1 (confirmed): in the interleaving model of the process-wide
`asyncio.Lock` around `model.transcribe`, every reachable process state has
at most one session inside its transcribe call, and a session suspended
awaiting the lock takes no step (its phase stays `waitingLock`) as long as
some session holds the lock. -/
theorem claim_c1_gate_mutual_exclusion
    (n : Nat) (s : GateState n) (h : GateReachable n s) :
    (∀ i j : Fin n, s.phase i = .inTranscribe → s.phase j = .inTranscribe → i = j)
    ∧ (∀ (s' : GateState n) (i : Fin n), GateStep s s' →
        s.phase i = .waitingLock → s.holder ≠ none → s'.phase i = .waitingLock) := by
  have hinv := gateInv_reachable h
  constructor
  · intro i j hi hj
    have hij := (hinv i hi).symm.trans (hinv j hj)
    injection hij
  · intro s' i hstep hwait hne
    cases hstep with
    | request k hk =>
      by_cases hik : i = k
      · subst hik
        rw [hwait] at hk
        cases hk
      · simp [hik, hwait]
    | acquire k hk hfree => exact absurd hfree hne
    | release k hk hhold =>
      by_cases hik : i = k
      · subst hik
        rw [hwait] at hk
        cases hk
      · simp [hik, hwait]

/-- Gate state after session 0 of two has reached the lock block. -/
def gateState1 : GateState 2 :=
  ⟨fun j => if j = (0 : Fin 2) then .waitingLock else (initGate 2).phase j,
   (initGate 2).holder⟩

/-- Gate state after session 0 of two has acquired the lock and is inside
its transcribe call. -/
def gateState2 : GateState 2 :=
  ⟨fun j => if j = (0 : Fin 2) then .inTranscribe else gateState1.phase j,
   some 0⟩

theorem gateState2_reachable : GateReachable 2 gateState2 := by
  have h1 : GateStep (initGate 2) gateState1 :=
    GateStep.request (initGate 2) 0 rfl
  have h2 : GateStep gateState1 gateState2 :=
    GateStep.acquire gateState1 0 rfl rfl
  exact Relation.ReflTransGen.tail (Relation.ReflTransGen.single h1) h2

/-- Witness for claim C1: the mutual-exclusion and suspension conclusions
hold at the concrete reachable state in which session 0 of two is inside
its transcribe call. -/
theorem claim_c1_witness :
    (∀ i j : Fin 2, gateState2.phase i = .inTranscribe →
        gateState2.phase j = .inTranscribe → i = j)
    ∧ (∀ (s' : GateState 2) (i : Fin 2), GateStep gateState2 s' →
        gateState2.phase i = .waitingLock → gateState2.holder ≠ none →
        s'.phase i = .waitingLock) :=
  claim_c1_gate_mutual_exclusion 2 gateState2 gateState2_reachable

/-- Counterexample to claim C2 as stated: an `AudioStop` with no open
buffer makes the handler raise `AssertionError` — no failed transcript is
reported (no event at all is written), and the session is not usable
afterwards: a following well-formed start/chunk/stop cycle on the same
connection produces nothing. -/
theorem claim_c2_counterexample :
    runEvents (fun _ => .ok "ok") initialState
        [.audioStart 16000 2 1, .audioStop,
         .audioStart 16000 2 1, .audioChunk 16000 2 1 [1, 2], .audioStop]
      = ([], .error .assertionError) := rfl

/-- Claim C2 (corrected): when `AudioStop` arrives with no open buffer,
`handle_event` fails with `AssertionError` (the `assert self._wav_file is
not None`), writing nothing to the client; the exception escapes the
handler instead of a StateError-class failed transcript. -/
theorem claim_c2_amended
    (tr : WavFile → Except RecError String) (s : HandlerState)
    (h : s._wav_file = none) :
    handle_event tr s .audioStop = .error .assertionError := by
  simp [handle_event, h]

/-- Witness for the amended claim C2 at the freshly constructed handler
state. -/
theorem claim_c2_witness :
    initialState._wav_file = none
    ∧ handle_event (fun _ => .ok "ok") initialState .audioStop
        = .error .assertionError :=
  ⟨rfl, claim_c2_amended (fun _ => .ok "ok") initialState rfl⟩

/-- Counterexample to claim C3 as stated: when the recognizer raises, no
failure result event is written (the exception escapes the handler) and a
subsequent utterance on the same connection produces nothing. -/
theorem claim_c3_counterexample :
    runEvents (fun _ => .error "CUDA error") initialState
        [.audioChunk 16000 2 1 [1, 2], .audioStop,
         .audioChunk 16000 2 1 [3], .audioStop]
      = ([], .error (.recognitionError "CUDA error")) := rfl

/-- Claim C3 (corrected): an error raised by `model.transcribe` during
`AudioStop` handling propagates out of `handle_event` as an exception; no
result event of any kind is written and the session does not return to
Idle. -/
theorem claim_c3_amended
    (tr : WavFile → Except RecError String) (s : HandlerState)
    (wf : WavFile) (e : RecError)
    (hwf : s._wav_file = some wf) (htr : tr wf = .error e) :
    handle_event tr s .audioStop = .error (.recognitionError e) := by
  simp [handle_event, hwf, htr]

/-- Witness for the amended claim C3 at a concrete buffered state and a
concretely failing recognizer. -/
theorem claim_c3_witness :
    handle_event (fun _ => .error "CUDA error")
        { initialState with _wav_file := some ⟨⟨16000, 2, 1⟩, [1, 2]⟩ }
        .audioStop
      = .error (.recognitionError "CUDA error") :=
  claim_c3_amended (fun _ => .error "CUDA error")
    { initialState with _wav_file := some ⟨⟨16000, 2, 1⟩, [1, 2]⟩ }
    ⟨⟨16000, 2, 1⟩, [1, 2]⟩ "CUDA error" rfl rfl

/-- Counterexample to claim C4 as stated: after the transcript for a
completed utterance is emitted, `handle_event` returns `False`, so the
server stops consuming events on that connection — the trailing `Describe`
here is never answered; the session does not loop back to Idle. -/
theorem claim_c4_counterexample :
    runEvents (fun _ => .ok "text") initialState
        [.audioChunk 16000 2 1 [1, 2], .audioStop, .describe]
      = ([.transcript "text"], .ok ({ initialState with _wav_file := none }, false)) := rfl

/-- Claim C4 (corrected): after a successful transcription the handler
discards the finalized buffer (`self._wav_file = None`) and emits exactly
the transcript event, but returns `False`, which ends the event loop for
the connection: any later events on it are not processed. -/
theorem claim_c4_amended
    (tr : WavFile → Except RecError String) (s : HandlerState)
    (wf : WavFile) (text : String)
    (hwf : s._wav_file = some wf) (htr : tr wf = .ok text)
    (rest : List WyomingEvent) :
    handle_event tr s .audioStop
      = .ok ({ s with _wav_file := none }, [.transcript text], false)
    ∧ runEvents tr s (.audioStop :: rest)
      = ([.transcript text], .ok ({ s with _wav_file := none }, false)) := by
  constructor
  · simp [handle_event, hwf, htr]
  · simp [runEvents, handle_event, hwf, htr]

/-- Witness for the amended claim C4: the buffered state, a succeeding
recognizer, and a pending `Describe` that is never consumed. -/
theorem claim_c4_witness :
    handle_event (fun _ => .ok "text")
        { initialState with _wav_file := some ⟨⟨16000, 2, 1⟩, [1, 2]⟩ }
        .audioStop
      = .ok ({ initialState with _wav_file := none }, [.transcript "text"], false)
    ∧ runEvents (fun _ => .ok "text")
        { initialState with _wav_file := some ⟨⟨16000, 2, 1⟩, [1, 2]⟩ }
        [.audioStop, .describe]
      = ([.transcript "text"], .ok ({ initialState with _wav_file := none }, false)) :=
  claim_c4_amended (fun _ => .ok "text")
    { initialState with _wav_file := some ⟨⟨16000, 2, 1⟩, [1, 2]⟩ }
    ⟨⟨16000, 2, 1⟩, [1, 2]⟩ "text" rfl rfl [.describe]

/-- Counterexample to claim C5 as stated: the completed
`AudioStart…AudioStop` cycle that contains no audio chunk produces zero
`Transcript` events — the handler dies on its assertion instead. -/
theorem claim_c5_counterexample :
    countTranscripts (runEvents (fun _ => .ok "ok") initialState
        [.audioStart 16000 2 1, .audioStop]).1 = 0
    ∧ (runEvents (fun _ => .ok "ok") initialState
        [.audioStart 16000 2 1, .audioStop]).2 = .error .assertionError :=
  ⟨rfl, rfl⟩

/-- Claim C5 (corrected): exactly one `Transcript` event is written per
completed `AudioStart…AudioStop` cycle that contains at least one
`AudioChunk` and whose recognizer call succeeds; a chunkless cycle crashes
with an assertion (zero events) and a failing recognizer call also writes
zero events. -/
theorem claim_c5_amended
    (tr : WavFile → Except RecError String) (s : HandlerState)
    (h : s._wav_file = none) (r w ch : Nat)
    (c : AudioChunkData) (cs : List AudioChunkData) (text : String)
    (htr : tr ⟨⟨c.rate, c.width, c.channels⟩, concatPayloads (c :: cs)⟩ = .ok text) :
    countTranscripts (runEvents tr s
        (.audioStart r w ch :: ((c :: cs).map AudioChunkData.toEvent ++ [.audioStop]))).1
      = 1 := by
  rw [runEvents_full_cycle tr s h r w ch c cs, htr]
  rfl

/-- Witness for the amended claim C5 on a concrete two-chunk utterance. -/
theorem claim_c5_witness :
    initialState._wav_file = none
    ∧ countTranscripts (runEvents (fun _ => .ok "ok") initialState
        [.audioStart 16000 2 1, .audioChunk 16000 2 1 [1, 2],
         .audioChunk 16000 2 1 [3, 4], .audioStop]).1 = 1 :=
  ⟨rfl, claim_c5_amended (fun _ => .ok "ok") initialState rfl 16000 2 1
    ⟨16000, 2, 1, [1, 2]⟩ [⟨16000, 2, 1, [3, 4]⟩] "ok" rfl⟩

/-- Claim C6 (confirmed): for a full `AudioStart`, chunks, `AudioStop`
cycle on a session with no open buffer, the wav file handed to the
recognizer carries exactly the concatenation of the chunk payloads in
arrival order (no gaps, drops, or reordering); its format is the first
chunk's format. -/
theorem claim_c6_bytes_delivered
    (tr : WavFile → Except RecError String) (s : HandlerState)
    (h : s._wav_file = none) (r w ch : Nat)
    (c : AudioChunkData) (cs : List AudioChunkData) :
    runEvents tr s
        (.audioStart r w ch :: ((c :: cs).map AudioChunkData.toEvent ++ [.audioStop]))
      = match tr ⟨⟨c.rate, c.width, c.channels⟩, concatPayloads (c :: cs)⟩ with
        | .error e => ([], .error (.recognitionError e))
        | .ok text => ([.transcript text], .ok ({ s with _wav_file := none }, false)) :=
  runEvents_full_cycle tr s h r w ch c cs

/-- Witness for claim C6: a recognizer that keys on the exact delivered
bytes sees the in-order concatenation of the two chunk payloads. -/
theorem claim_c6_witness :
    initialState._wav_file = none
    ∧ runEvents (fun wf => if wf.data = [1, 2, 3, 4, 5] then .ok "all" else .error "lost")
        initialState
        [.audioStart 16000 2 1, .audioChunk 16000 2 1 [1, 2],
         .audioChunk 8000 1 2 [3, 4, 5], .audioStop]
      = ([.transcript "all"], .ok ({ initialState with _wav_file := none }, false)) := by
  refine ⟨rfl, ?_⟩
  have hh := claim_c6_bytes_delivered
    (fun wf => if wf.data = [1, 2, 3, 4, 5] then .ok "all" else .error "lost")
    initialState rfl 16000 2 1 ⟨16000, 2, 1, [1, 2]⟩ [⟨8000, 1, 2, [3, 4, 5]⟩]
  simpa using hh

/-- Counterexample to claim C7 as stated: an audio-start event received
while Idle leaves the handler state unchanged — no AudioSink is opened with
its format and no transition happens (the handler ignores `AudioStart`
completely; it does not even import the type). -/
theorem claim_c7_counterexample :
    handle_event (fun _ => .ok "ok") initialState (.audioStart 16000 2 1)
      = .ok (initialState, [], true) := rfl

/-- Claim C7 (corrected): audio-start events are ignored entirely (state
unchanged, nothing written, connection kept open); the wav buffer is
instead opened lazily by the first `AudioChunk`, with the chunk's own
format fields, so a repeated audio-start discards nothing. -/
theorem claim_c7_amended
    (tr : WavFile → Except RecError String) (s : HandlerState)
    (r w ch : Nat) (a : List Nat) (h : s._wav_file = none) :
    handle_event tr s (.audioStart r w ch) = .ok (s, [], true)
    ∧ handle_event tr s (.audioChunk r w ch a)
      = .ok ({ s with _wav_file := some ⟨⟨r, w, ch⟩, a⟩ }, [], true) := by
  exact ⟨rfl, by simp [handle_event, h]⟩

/-- Witness for the amended claim C7 at the fresh handler state. -/
theorem claim_c7_witness :
    handle_event (fun _ => .ok "ok") initialState (.audioStart 16000 2 1)
      = .ok (initialState, [], true)
    ∧ handle_event (fun _ => .ok "ok") initialState (.audioChunk 16000 2 1 [9])
      = .ok ({ initialState with _wav_file := some ⟨⟨16000, 2, 1⟩, [9]⟩ }, [], true) :=
  claim_c7_amended (fun _ => .ok "ok") initialState 16000 2 1 [9] rfl

/-- Counterexample to claim C8 as stated: an `AudioChunk` received while no
buffer is open is not ignored — the handler opens a new wav buffer with the
chunk's format and appends the chunk's bytes, changing the session state. -/
theorem claim_c8_counterexample :
    handle_event (fun _ => .ok "ok") initialState (.audioChunk 16000 2 1 [1, 2])
      = .ok ({ initialState with _wav_file := some ⟨⟨16000, 2, 1⟩, [1, 2]⟩ }, [], true) := rfl

/-- Claim C8 (corrected): an `AudioChunk` arriving with no open buffer
opens a fresh wav buffer with the chunk's format and buffers the chunk's
payload (the handler never logs-and-ignores frames). -/
theorem claim_c8_amended
    (tr : WavFile → Except RecError String) (s : HandlerState)
    (r w ch : Nat) (a : List Nat) (h : s._wav_file = none) :
    handle_event tr s (.audioChunk r w ch a)
      = .ok ({ s with _wav_file := some ⟨⟨r, w, ch⟩, a⟩ }, [], true) := by
  simp [handle_event, h]

/-- Witness for the amended claim C8 at the fresh handler state. -/
theorem claim_c8_witness :
    handle_event (fun _ => .ok "ok") initialState (.audioChunk 8000 1 1 [7, 8])
      = .ok ({ initialState with _wav_file := some ⟨⟨8000, 1, 1⟩, [7, 8]⟩ }, [], true) :=
  claim_c8_amended (fun _ => .ok "ok") initialState 8000 1 1 [7, 8] rfl

/-- Claim C9 (confirmed): any two sessions, after any event histories that
leave their handlers alive, answer `Describe` with the same static
`wyoming_info_event` content — the process-wide info constructed in `main`,
which lists at least one supported model — without changing their state. -/
theorem claim_c9_describe_static
    (tr1 tr2 : WavFile → Except RecError String)
    (es1 es2 : List WyomingEvent)
    (s1 s2 : HandlerState) (out1 out2 : List OutEvent) (c1 c2 : Bool)
    (h1 : runEvents tr1 initialState es1 = (out1, .ok (s1, c1)))
    (h2 : runEvents tr2 initialState es2 = (out2, .ok (s2, c2))) :
    handle_event tr1 s1 .describe = .ok (s1, [.info wyomingInfo], true)
    ∧ handle_event tr2 s2 .describe = .ok (s2, [.info wyomingInfo], true)
    ∧ 1 ≤ (supportedModels wyomingInfo).length := by
  have e1 := runEvents_info_preserved tr1 es1 initialState s1 out1 c1 h1
  have e2 := runEvents_info_preserved tr2 es2 initialState s2 out2 c2 h2
  refine ⟨?_, ?_, ?_⟩
  · simp [handle_event, e1, initialState]
  · simp [handle_event, e2, initialState]
  · decide

/-- Witness for claim C9: a fresh session and a session that has already
served one `Describe` answer identically. -/
theorem claim_c9_witness :
    handle_event (fun _ => .ok "a") initialState .describe
      = .ok (initialState, [.info wyomingInfo], true)
    ∧ handle_event (fun _ => .error "b") initialState .describe
      = .ok (initialState, [.info wyomingInfo], true)
    ∧ 1 ≤ (supportedModels wyomingInfo).length :=
  claim_c9_describe_static (fun _ => .ok "a") (fun _ => .error "b")
    [] [.describe] initialState initialState [] [.info wyomingInfo] true true rfl rfl

/-- Claim C10 (confirmed): any inbound event whose type is none of
`AudioChunk`, `AudioStop`, `Transcribe`, `Describe` — `AudioStart` among
them — falls through every branch of `handle_event`: the state is
unchanged, nothing is written, and `True` is returned so the connection
stays open. -/
theorem claim_c10_default_branch
    (tr : WavFile → Except RecError String) (s : HandlerState)
    (r w ch : Nat) (ty : String) :
    handle_event tr s (.audioStart r w ch) = .ok (s, [], true)
    ∧ handle_event tr s (.other ty) = .ok (s, [], true) :=
  ⟨rfl, rfl⟩
